import Mathlib

/-!
Verification of the isolated-execution services of the online-compiler backend.

The definitions below are a shallow embedding of the JavaScript sources:

* the Docker batch execution service (`executeCode`, `pullImage`, the
  per-language configuration table);
* the Docker terminal service (`getImageForLanguage`, the
  `terminal_create` handler);
* the mock (degraded-mode) Docker service and the mock terminal service.

External effects (filesystem calls, the Docker daemon, the exit of the container) are represented by an explicit world record fixing the outcome of
each effectful call, and `executeCode` is a pure function of that world
that also reports its visible side effects (workspace created/removed,
container configuration passed to the daemon, number of image pulls).
-/

/-- One entry of the `languageConfigs` table of the Docker batch service.
`filename` and `inputCommand` are optional keys, matching the JS object. -/
structure LangConfig where
  image : String
  extension : String
  filename : Option String
  command : List String
  inputCommand : Option (List String)
  workDir : String
deriving DecidableEq, Repr

/-- The `languageConfigs` object of the Docker batch service (full version):
lookup by lowercased language name; absent key gives `none`. -/
def languageConfigs : String → Option LangConfig
  | "javascript" => some
      { image := "node:16-alpine", extension := "js", filename := some "program.js"
        command := ["node", "/code/program.js"]
        inputCommand := some ["bash", "-c", "cat /code/input.txt | node /code/program.js"]
        workDir := "/code" }
  | "python" => some
      { image := "python:3.9-alpine", extension := "py", filename := some "program.py"
        command := ["python", "/code/program.py"]
        inputCommand := some ["bash", "-c", "cat /code/input.txt | python /code/program.py"]
        workDir := "/code" }
  | "java" => some
      { image := "openjdk:11-jdk-slim", extension := "java", filename := some "Main.java"
        command := ["bash", "-c", "cd /code && javac Main.java && java Main"]
        inputCommand := some ["bash", "-c", "cd /code && javac Main.java && cat input.txt | java Main"]
        workDir := "/code" }
  | "cpp" => some
      { image := "gcc:latest", extension := "cpp", filename := some "program.cpp"
        command := ["bash", "-c", "cd /code && g++ -o program program.cpp && ./program"]
        inputCommand := some ["bash", "-c", "cd /code && g++ -o program program.cpp && cat input.txt | ./program"]
        workDir := "/code" }
  | "c" => some
      { image := "gcc:latest", extension := "c", filename := some "program.c"
        command := ["bash", "-c", "cd /code && gcc -o program program.c && ./program"]
        inputCommand := some ["bash", "-c", "cd /code && gcc -o program program.c && cat input.txt | ./program"]
        workDir := "/code" }
  | "html" => some
      { image := "nginx:alpine", extension := "html", filename := some "index.html"
        command := ["echo", "HTML files are for preview only"]
        inputCommand := none
        workDir := "/code" }
  | _ => none

/-- A `\w` character of a JavaScript regular expression: `[A-Za-z0-9_]`. -/
def isJsWordChar (c : Char) : Bool :=
  ('a' ≤ c && c ≤ 'z') || ('A' ≤ c && c ≤ 'Z') || ('0' ≤ c && c ≤ '9') || c = '_'

/-- `toLowerCase()` of JavaScript, restricted to ASCII as the language
identifiers of this system are. -/
def jsCharLower (c : Char) : Char :=
  if 'A' ≤ c && c ≤ 'Z' then Char.ofNat (c.toNat + 32) else c

/-- `language.toLowerCase()`. -/
def jsToLowerCase (s : String) : String :=
  (s.toList.map jsCharLower).asString

/-- A `\s` character of a JavaScript regular expression (ASCII part). -/
def isJsSpace (c : Char) : Bool :=
  c = ' ' || c = '\t' || c = '\n' || c = '\r' || c = '\x0b' || c = '\x0c'

/-- Match a literal character sequence at the front of the input,
returning the rest of the input on success. -/
def dropLit : List Char → List Char → Option (List Char)
  | [], cs => some cs
  | _ :: _, [] => none
  | l :: ls, c :: cs => if c = l then dropLit ls cs else none

/-- Match `\s+` at the front of the input (greedy, one or more). -/
def dropSpaces1 : List Char → Option (List Char)
  | [] => none
  | c :: cs => if isJsSpace c then some ((c :: cs).dropWhile isJsSpace) else none

/-- Match the capture group `(\w+)` at the front of the input (greedy). -/
def takeWord1 : List Char → Option String
  | [] => none
  | c :: cs =>
      if isJsWordChar c then some ((c :: cs).takeWhile isJsWordChar |>.asString)
      else none

/-- Attempt the regex `public\s+class\s+(\w+)` anchored at the current
position, returning the captured class name. -/
def matchPublicClassAt (cs : List Char) : Option String := do
  let cs ← dropLit "public".toList cs
  let cs ← dropSpaces1 cs
  let cs ← dropLit "class".toList cs
  let cs ← dropSpaces1 cs
  takeWord1 cs

/-- `code.match(/public\s+class\s+(\w+)/)`: leftmost match of the Java
public-class pattern, returning the captured identifier. -/
def findPublicClass : List Char → Option String
  | [] => none
  | c :: cs =>
      match matchPublicClassAt (c :: cs) with
      | some s => some s
      | none => findPublicClass cs

/-- `filename = config.filename || \x7bprogram.$ext\x7d`, with the Java
special case extracting the public class name (fallback `Main.java`),
exactly as in the batch `executeCode`. -/
def determineFilename (language code : String) (config : LangConfig) : String :=
  if jsToLowerCase language = "java" then
    match findPublicClass code.toList with
    | some className => className ++ ".java"
    | none => "Main.java"
  else
    match config.filename with
    | some f => if f = "" then "program." ++ config.extension else f
    | none => "program." ++ config.extension

/-- The `HostConfig` object passed to `docker.createContainer`. -/
structure HostConfig where
  networkMode : String
  memory : Nat
  memorySwap : Nat
  cpuPeriod : Nat
  cpuQuota : Nat
  pidsLimit : Nat
  readonlyRootfs : Bool
  autoRemove : Bool
deriving DecidableEq, Repr

/-- Host configuration of the full batch service: every batch container,
for every language, gets this one literal record (`ReadonlyRootfs: false`,
commented "Need write access for compilation"). -/
def hostConfigFull : HostConfig :=
  { networkMode := "none"
    memory := 512 * 1024 * 1024
    memorySwap := 512 * 1024 * 1024
    cpuPeriod := 100000
    cpuQuota := 50000
    pidsLimit := 50
    readonlyRootfs := false
    autoRemove := true }

/-- Host configuration of the second (related) batch service: identical
except `ReadonlyRootfs: true` for every language. -/
def hostConfigReadonly : HostConfig :=
  { hostConfigFull with readonlyRootfs := true }

/-- The container-creation argument built by the batch `executeCode`. -/
structure ContainerConfig where
  image : String
  cmd : List String
  workingDir : String
  host : HostConfig
  tty : Bool
  openStdin : Bool
  stdinOnce : Bool
deriving DecidableEq, Repr

/-- `containerConfig` of the full batch service:
`Cmd: input && config.inputCommand ? config.inputCommand : config.command`,
with the host configuration independent of the language. -/
def mkContainerConfig (config : LangConfig) (input : String) : ContainerConfig :=
  { image := config.image
    cmd :=
      match config.inputCommand with
      | some ic => if input ≠ "" then ic else config.command
      | none => config.command
    workingDir := config.workDir
    host := hostConfigFull
    tty := false
    openStdin := true
    stdinOnce := true }

/-- The result object returned by the batch `executeCode`. The source
never writes an `errorKind` or `simulated` key, so reading either of
them yields `undefined`; they are modelled as `Option` fields that every
construction site of the source leaves at `none`. -/
structure ExecResult where
  executionId : String
  status : String
  output : String
  exitCode : Int
  errorKind : Option String := none
deriving DecidableEq, Repr

/-- How a call of the batch `executeCode` ends: a thrown error (only the
unsupported-language throw escapes the try/catch), divergence (the code
awaits `container.wait()` with no timeout, so a program that never exits
blocks the call forever), or a returned result. -/
inductive ExecOutcome where
  | thrown (msg : String)
  | diverges
  | result (r : ExecResult)
deriving DecidableEq, Repr

/-- Outcomes of the external (filesystem and Docker) calls performed by
one run of the batch `executeCode`, fixed up front. Directory removal
(`fs.rm` with `recursive` and `force`) is modelled as always succeeding
on the modelled filesystem. -/
structure ExecWorld where
  mkdirOk : Bool
  mkdirErr : String
  writeOk : Bool
  writeErr : String
  imagePresent : Bool
  pullOk : Bool
  pullErr : String
  createOk : Bool
  createErr : String
  startOk : Bool
  startErr : String
  waitExit : Option Int
  logs : String
deriving DecidableEq, Repr

/-- Observable trace of one `executeCode` call: its outcome plus the side
effects visible outside the call. -/
structure ExecTrace where
  outcome : ExecOutcome
  tempDirCreated : Bool
  tempDirExists : Bool
  writtenFile : Option String
  container : Option ContainerConfig
  pullsIssued : Nat
deriving DecidableEq, Repr

/-- The result built by the catch block of `executeCode`: after removing
the temp directory it returns `status: error`, the error message as
output, `exitCode: 1`, and no `errorKind`. -/
def catchResult (executionId msg : String) : ExecResult :=
  { executionId := executionId, status := "error", output := msg, exitCode := 1 }

/-- The member names every plain JS object literal inherits from
`Object.prototype`; property access on the config objects for these
keys yields a truthy non-profile value (a function, or the prototype
object itself for `__proto__`) instead of `undefined`. -/
def objectProtoKeys : List String :=
  ["constructor", "hasOwnProperty", "isPrototypeOf", "propertyIsEnumerable",
   "toLocaleString", "toString", "valueOf", "__defineGetter__",
   "__defineSetter__", "__lookupGetter__", "__lookupSetter__", "__proto__"]

/-- What `languageConfigs[key]` evaluates to in JS: an own entry of the
table, a truthy member inherited from `Object.prototype`, or
`undefined`. -/
inductive ConfigLookup where
  | own (cfg : LangConfig)
  | inheritedMember
  | absent
deriving DecidableEq, Repr

/-- The JS property access `languageConfigs[key]`, prototype chain
included. -/
def languageConfigsLookup (key : String) : ConfigLookup :=
  match languageConfigs key with
  | some cfg => .own cfg
  | none => if key ∈ objectProtoKeys then .inheritedMember else .absent

/-- Continuation of the batch `executeCode` when the config lookup hit a
member inherited from `Object.prototype` (e.g. `language =
"constructor"`): the truthy non-profile value passes the `if (!config)`
check, so the unsupported-language throw is skipped and the try block
runs. The temp directory is created and the source written under
`program.undefined` (the undefined `config.extension` interpolated into
the template); the undefined `config.image` is interpolated into the
inspect/pull requests (the world answers them as usual), and the
container-creation request carries no image key at all — the daemon
refuses it, so no container configuration is recorded and the catch
block removes the workspace and returns the generic error result. -/
def executeCodeInherited (w : ExecWorld) (executionId : String) : ExecTrace :=
  if !w.mkdirOk then
    { outcome := .result (catchResult executionId w.mkdirErr)
      tempDirCreated := false, tempDirExists := false
      writtenFile := none, container := none, pullsIssued := 0 }
  else if !w.writeOk then
    { outcome := .result (catchResult executionId w.writeErr)
      tempDirCreated := true, tempDirExists := false
      writtenFile := none, container := none, pullsIssued := 0 }
  else if !w.imagePresent && !w.pullOk then
    { outcome := .result (catchResult executionId w.pullErr)
      tempDirCreated := true, tempDirExists := false
      writtenFile := some "program.undefined", container := none, pullsIssued := 1 }
  else
    { outcome := .result (catchResult executionId w.createErr)
      tempDirCreated := true, tempDirExists := false
      writtenFile := some "program.undefined", container := none
      pullsIssued := if w.imagePresent then 0 else 1 }

/-- The batch `executeCode` of the Docker service, as a function of the
effect world. Control flow follows the source: a language whose lookup
yields `undefined` throws before any filesystem or Docker call (a
truthy inherited `Object.prototype` member skips the throw instead and
proceeds, see `executeCodeInherited`); the try block creates the temp
directory, writes the source (and the stdin file when input is
non-empty), ensures the image (inspect, pulling on inspect failure),
creates and starts the container, then awaits `container.wait()` with no
timeout; both the natural-exit return and the catch return remove the
temp directory first. Attaching and writing stdin to the container
stream is modelled as effect-free. -/
def executeCode (w : ExecWorld) (executionId code language input : String) : ExecTrace :=
  match languageConfigsLookup (jsToLowerCase language) with
  | .absent =>
      { outcome := .thrown ("Unsupported language: " ++ language)
        tempDirCreated := false, tempDirExists := false
        writtenFile := none, container := none, pullsIssued := 0 }
  | .inheritedMember => executeCodeInherited w executionId
  | .own config =>
      if !w.mkdirOk then
        { outcome := .result (catchResult executionId w.mkdirErr)
          tempDirCreated := false, tempDirExists := false
          writtenFile := none, container := none, pullsIssued := 0 }
      else
        let filename := determineFilename language code config
        if !w.writeOk then
          { outcome := .result (catchResult executionId w.writeErr)
            tempDirCreated := true, tempDirExists := false
            writtenFile := none, container := none, pullsIssued := 0 }
        else
          let pulls : Nat := if w.imagePresent then 0 else 1
          if !w.imagePresent && !w.pullOk then
            { outcome := .result (catchResult executionId w.pullErr)
              tempDirCreated := true, tempDirExists := false
              writtenFile := some filename, container := none, pullsIssued := 1 }
          else
            let cfg := mkContainerConfig config input
            if !w.createOk then
              { outcome := .result (catchResult executionId w.createErr)
                tempDirCreated := true, tempDirExists := false
                writtenFile := some filename, container := some cfg, pullsIssued := pulls }
            else if !w.startOk then
              { outcome := .result (catchResult executionId w.startErr)
                tempDirCreated := true, tempDirExists := false
                writtenFile := some filename, container := some cfg, pullsIssued := pulls }
            else
              match w.waitExit with
              | none =>
                  { outcome := .diverges
                    tempDirCreated := true, tempDirExists := true
                    writtenFile := some filename, container := some cfg, pullsIssued := pulls }
              | some statusCode =>
                  { outcome := .result
                      { executionId := executionId
                        status := if statusCode = 0 then "success" else "error"
                        output := w.logs
                        exitCode := statusCode }
                    tempDirCreated := true, tempDirExists := false
                    writtenFile := some filename, container := some cfg, pullsIssued := pulls }

/-! ## Concurrent image availability

In the batch service, each `executeCode` call independently runs
`try docker.getImage(image).inspect() catch pullImage(image)`.
There is no shared in-flight marker: whether a call pulls is decided
solely from the inspect result that call itself observed. The scheduler
state below runs `n` such calls under an arbitrary interleaving of their
two steps (inspect, then the pull of those that observed the image
absent). -/

/-- State of `n` concurrent `executeCode` calls in the image phase. -/
structure ImagePhase where
  present : Bool
  pulls : Nat
  atInspect : Nat
  toPull : Nat
  done : Nat
deriving DecidableEq, Repr

/-- One scheduling choice: advance some call sitting at its inspect, or
some call whose pull is pending. -/
inductive PhaseStep where
  | inspect
  | pull
deriving DecidableEq, Repr

/-- Transition of the image phase. An inspect of a present image finishes
the image phase of that call; of an absent image, moves the call to its pull.
A pull issues `docker.pull` (counted), after which the image is cached. -/
def phaseStep (s : ImagePhase) : PhaseStep → ImagePhase
  | .inspect =>
      if s.atInspect = 0 then s
      else if s.present then
        { s with atInspect := s.atInspect - 1, done := s.done + 1 }
      else
        { s with atInspect := s.atInspect - 1, toPull := s.toPull + 1 }
  | .pull =>
      if s.toPull = 0 then s
      else
        { s with toPull := s.toPull - 1, done := s.done + 1,
                 pulls := s.pulls + 1, present := true }

/-- Run a schedule of interleaved steps. -/
def phaseRun (s : ImagePhase) (sched : List PhaseStep) : ImagePhase :=
  sched.foldl phaseStep s

/-- `n` concurrent calls referencing an image that is not yet cached. -/
def phaseInit (n : Nat) : ImagePhase :=
  { present := false, pulls := 0, atInspect := n, toPull := 0, done := 0 }

/-- The interleaving in which all `n` calls inspect before any pull
starts. -/
def checksFirst (n : Nat) : List PhaseStep :=
  List.replicate n .inspect ++ List.replicate n .pull

/-! ## Degraded-mode (mock) executor -/

/-- The result object of the mock `executeCode`. As in the Docker
service, the source constructs plain `\x7bexecutionId, status, output,
exitCode\x7d` objects: it never writes an `errorKind` or a `simulated`
key, so both read back as `undefined` (`none`). -/
structure MockExecResult where
  executionId : String
  status : String
  output : String
  exitCode : Int
  errorKind : Option String := none
  simulated : Option Bool := none
deriving DecidableEq, Repr

/-- The five languages with a dedicated arm in the mock `executeCode`
switch (the python direct patch also applies only to python). -/
def mockSpecialLangs : List String := ["javascript", "python", "java", "cpp", "c"]

/-- `code.substring(0, n)` of JavaScript. -/
def jsSubstringTo (s : String) (n : Nat) : String :=
  (s.toList.take n).asString

/-- Output text of the default arm of the mock `executeCode` switch. -/
def mockDefaultOutput (code language input : String) : String :=
  if input ≠ "" then
    "Mock output for " ++ language ++ " code with input:\n" ++ input ++ "\n\n"
      ++ jsSubstringTo code 100 ++ "...\n\nExecution successful!"
  else
    "Mock output for " ++ language ++ " code:\n" ++ jsSubstringTo code 100
      ++ "...\n\nExecution successful!"

/-- The mock `executeCode` on a language outside the five
specially-handled ones: the python patch does not apply and the switch
falls through to its default arm, which fabricates a generic mock output
and returns `status: success`, `exitCode: 0` without running anything. -/
def mockExecuteCodeDefault (executionId code language input : String) : MockExecResult :=
  { executionId := executionId
    status := "success"
    output := mockDefaultOutput code language input
    exitCode := 0 }

/-- The pure string heuristics of the mock service, abstracted as
parameters: the python direct patch computes, when it applies, only the
`outputText` of the patched result, and the four per-language simulators
compute only the output string of the result — none of them can touch
`status`, `exitCode`, or any tag key, which the caller fixes with
literals. Every theorem below therefore holds for every choice of these
functions, in particular for the exact regex heuristics of the source. -/
structure MockHeuristics where
  pythonPatch : String → String → Option String
  mockJavaScriptExecution : String → String → String
  mockPythonExecution : String → String → String
  mockJavaExecution : String → String
  mockCExecution : String → String → String

/-- The switch of the mock `executeCode`: `status` and `exitCode` are
initialized to `success` and 0 before the switch and never reassigned —
the arms (including the `cpp`/`c` fallthrough and the default arm) only
choose the output string. -/
def mockSwitchOutput (h : MockHeuristics) (code language input : String) : String :=
  if jsToLowerCase language = "javascript" then h.mockJavaScriptExecution code input
  else if jsToLowerCase language = "python" then h.mockPythonExecution code input
  else if jsToLowerCase language = "java" then h.mockJavaExecution code
  else if jsToLowerCase language = "cpp" || jsToLowerCase language = "c" then
    h.mockCExecution code input
  else mockDefaultOutput code language input

/-- The mock `executeCode` of the degraded-mode service over all of its
branches: the python direct patch is attempted first (for python only)
and, when it applies, its result is returned with the literal
`status: success`, `exitCode: 0`; otherwise the switch chooses the
output string and the result is returned with the same literals; a
throw inside the try block is caught and returned as `status: error`
with the literal `exitCode: 1`. No construction site writes an
`errorKind` or `simulated` key. -/
def mockExecuteCode (h : MockHeuristics) (thrown : Option String)
    (executionId code language input : String) : MockExecResult :=
  match thrown with
  | some msg =>
      { executionId := executionId, status := "error"
        output := "Mock execution error: " ++ msg, exitCode := 1 }
  | none =>
      if jsToLowerCase language = "python" then
        match h.pythonPatch code input with
        | some outputText =>
            { executionId := executionId, status := "success"
              output := outputText
                ++ "\n** Process exited - Return Code: 0 **\nPress Enter to exit terminal"
              exitCode := 0 }
        | none =>
            { executionId := executionId, status := "success"
              output := mockSwitchOutput h code language input, exitCode := 0 }
      else
        { executionId := executionId, status := "success"
          output := mockSwitchOutput h code language input, exitCode := 0 }

/-- A sample instantiation of the abstract heuristics, used only to
state closed witness facts (the theorems hold for every instantiation,
in particular for that of the source). -/
def trivialMockHeuristics : MockHeuristics :=
  { pythonPatch := fun _ _ => none
    mockJavaScriptExecution := fun _ _ => ""
    mockPythonExecution := fun _ _ => ""
    mockJavaExecution := fun _ => ""
    mockCExecution := fun _ _ => "" }

/-! ## Mock terminal service -/

/-- A session record of the mock terminal service (the `socket` field is
connection plumbing and is not modelled). -/
structure MockTermSession where
  language : Option String
  history : List String
  active : Bool
deriving DecidableEq, Repr

/-- Events a client can send to an existing mock terminal session. -/
inductive TermEvent where
  | input (data : String)
  | close
deriving DecidableEq, Repr

/-- Events the mock terminal service emits for an existing session after
creation: only `terminal_output` payloads (a `terminal_error` is emitted
only when session creation itself fails). -/
inductive TermEmit where
  | output (data : String)
deriving DecidableEq, Repr

/-- `processCommand` of the mock terminal service. `now` stands for
`new Date().toString()` in the `date` arm. The `language` parameter is
accepted and ignored, as in the source. -/
def processCommand (now command : String) (language : Option String) : String :=
  let cmd := command.trim
  if cmd = "" then ""
  else if cmd.startsWith "echo " then cmd.drop 5
  else if cmd = "ls" || cmd = "dir" then "example.txt\nREADME.md\nsrc/\nnode_modules/"
  else if cmd = "pwd" || cmd = "cd" then "/home/user"
  else if cmd = "whoami" then "user"
  else if cmd = "date" then now
  else if cmd.startsWith "cat " then
    "Content of " ++ cmd.drop 4 ++ ":\nThis is a simulated file content."
  else if cmd = "help" then
    "Available commands: echo, ls, pwd, whoami, date, cat, help, clear"
  else if cmd = "clear" then "\x1bc"
  else if cmd.startsWith "python" || cmd.startsWith "node" || cmd.startsWith "java" then
    "Simulated " ++ ((cmd.splitOn " ").headD "") ++ " execution...\nHello, World!\nExecution complete."
  else
    "Command not found: " ++ cmd ++ "\nThis is a simulated terminal environment with limited functionality."

/-- One event delivered to a mock terminal session, as handled by the
listeners `setupTerminal` registers for that session. An input is acted
on only when the session is still active (`if (session && session.active)`);
an inactive session ignores it without emitting anything. The close
handler runs `closeTerminalSession` (which clears `active`; the map
eviction itself is delayed) and then unconditionally emits one more
`terminal_output` reading "Terminal session closed.". -/
def mockTermStep (now : String) (s : MockTermSession) :
    TermEvent → MockTermSession × List TermEmit
  | .input d =>
      if s.active then
        ({ s with history := s.history ++ [d] },
         [.output (processCommand now d s.language)])
      else (s, [])
  | .close =>
      ({ s with active := false }, [.output "Terminal session closed."])

/-! ## Docker terminal service -/

/-- The `imageMap` of `getImageForLanguage` in the Docker terminal
service. -/
def terminalImageMap : String → Option String
  | "javascript" => some "node:16-alpine"
  | "python" => some "python:3.9-alpine"
  | "java" => some "openjdk:11-jdk-slim"
  | "cpp" => some "gcc:latest"
  | "c" => some "gcc:latest"
  | "go" => some "golang:alpine"
  | "ruby" => some "ruby:alpine"
  | "rust" => some "rust:slim"
  | "php" => some "php:cli-alpine"
  | _ => none

/-- What `imageMap[language.toLowerCase()] || alpine` evaluates to: a
string image reference, or a truthy member inherited from
`Object.prototype` (for keys like `constructor` or `__proto__`), which
short-circuits the `||` fallback and is returned as the image. -/
inductive TermImage where
  | str (s : String)
  | inheritedMember
deriving DecidableEq, Repr

/-- `getImageForLanguage`: a missing or empty (falsy) language falls
back to `alpine:latest`; otherwise the lookup returns the own map
entry, or — for an inherited `Object.prototype` member name — the
truthy inherited value itself, and only a genuinely undefined lookup
takes the `alpine:latest` default. -/
def getImageForLanguage (language : Option String) : TermImage :=
  match language with
  | none => .str "alpine:latest"
  | some l =>
      if l = "" then .str "alpine:latest"
      else
        match terminalImageMap (jsToLowerCase l) with
        | some img => .str img
        | none =>
            if jsToLowerCase l ∈ objectProtoKeys then .inheritedMember
            else .str "alpine:latest"

/-- Outcome of the `terminal_create` handler of the Docker terminal
service. -/
inductive TermCreateOutcome where
  | created (sessionId image : String)
  | creationError (msg : String)
deriving DecidableEq, Repr

/-- The `terminal_create` handler: it computes the image from the
requested language with no validation. With a string image reference the
Docker calls (create/start/attach) proceed and `dockerOk` fixes their
outcome; with an inherited non-string value the container-creation
request carries no usable image reference, the daemon refuses it, and
the catch emits `terminal_error` — no session is stored. -/
def terminalCreate (dockerOk : Bool) (sessionId : String)
    (language : Option String) : TermCreateOutcome :=
  match getImageForLanguage language with
  | .str image =>
      if dockerOk then .created sessionId image
      else .creationError "Failed to create terminal session"
  | .inheritedMember => .creationError "Failed to create terminal session"

/-! ## Concrete worlds and sessions used in closed statements -/

/-- A world in which every external call succeeds and the program in the container never exits (`container.wait()` never resolves). -/
def worldNeverExits : ExecWorld :=
  { mkdirOk := true, mkdirErr := "", writeOk := true, writeErr := ""
    imagePresent := true, pullOk := true, pullErr := ""
    createOk := true, createErr := "", startOk := true, startErr := ""
    waitExit := none, logs := "partial output" }

/-- A world in which every external call succeeds and the container
exits with the given status code and combined log output. -/
def worldExit (c : Int) (logs : String) : ExecWorld :=
  { worldNeverExits with waitExit := some c, logs := logs }

/-- A world in which the image is not cached and the pull fails with the
given error message. -/
def worldPullFail (msg : String) : ExecWorld :=
  { worldNeverExits with
      imagePresent := false
      pullOk := false
      pullErr := msg
      waitExit := some 0 }

/-- An active mock terminal session. -/
def mockSessionActive : MockTermSession :=
  { language := some "python", history := [], active := true }

/-- A closed mock terminal session. -/
def mockSessionClosed : MockTermSession :=
  { language := none, history := [], active := false }

/-! ## Helper lemmas -/

/-- Running the inspect of `k` calls while the image is absent moves all
`k` of them to the pull stage without issuing any pull. -/
theorem phaseRun_inspects (k : Nat) : ∀ (pulls t d : Nat),
    phaseRun ⟨false, pulls, k, t, d⟩ (List.replicate k .inspect)
      = ⟨false, pulls, 0, t + k, d⟩ := by
  induction k with
  | zero => intro pulls t d; simp [phaseRun]
  | succ k ih =>
      intro pulls t d
      have hstep : phaseStep ⟨false, pulls, k + 1, t, d⟩ .inspect
          = ⟨false, pulls, k, t + 1, d⟩ := by
        simp [phaseStep]
      have harith : t + 1 + k = t + (k + 1) := by omega
      calc phaseRun ⟨false, pulls, k + 1, t, d⟩ (List.replicate (k + 1) .inspect)
          = phaseRun ⟨false, pulls, k, t + 1, d⟩ (List.replicate k .inspect) := by
            simp [phaseRun, List.replicate_succ, hstep]
        _ = ⟨false, pulls, 0, t + 1 + k, d⟩ := ih pulls (t + 1) d
        _ = ⟨false, pulls, 0, t + (k + 1), d⟩ := by rw [harith]

/-- Running the pending pulls of `k` calls issues exactly `k` pulls. -/
theorem phaseRun_pulls (k : Nat) : ∀ (pr : Bool) (pulls a d : Nat),
    (phaseRun ⟨pr, pulls, a, k, d⟩ (List.replicate k .pull)).pulls = pulls + k := by
  induction k with
  | zero => intro pr pulls a d; simp [phaseRun]
  | succ k ih =>
      intro pr pulls a d
      have hstep : phaseStep ⟨pr, pulls, a, k + 1, d⟩ .pull
          = ⟨true, pulls + 1, a, k, d + 1⟩ := by
        simp [phaseStep]
      have : phaseRun ⟨pr, pulls, a, k + 1, d⟩ (List.replicate (k + 1) .pull)
          = phaseRun ⟨true, pulls + 1, a, k, d + 1⟩ (List.replicate k .pull) := by
        simp [phaseRun, List.replicate_succ, hstep]
      rw [this, ih]
      omega

/-- A successful registry lookup is an own property of the config
object. -/
theorem languageConfigsLookup_own {key : String} {cfg : LangConfig}
    (h : languageConfigs key = some cfg) : languageConfigsLookup key = .own cfg := by
  unfold languageConfigsLookup
  rw [h]

/-! ## Claim theorems -/

/-- C1: the batch `executeCode` enforces no timeout. With every external
call succeeding and a program that never exits, the call diverges: it is
never forcibly terminated, never returns any result (so in particular no
`status = "error"` / `errorKind = "ExecutionTimeout"` result), and the
workspace is never removed; and even a returning execution carries no
`errorKind` key at all. -/
theorem executeCode_never_times_out :
    (executeCode worldNeverExits "exec-1" "while True: pass" "python" "").outcome
      = .diverges ∧
    (executeCode worldNeverExits "exec-1" "while True: pass" "python" "").tempDirExists
      = true ∧
    (executeCode (worldExit 0 "partial") "exec-1b" "x = 1" "python" "").outcome
      = .result { executionId := "exec-1b", status := "success"
                  output := "partial", exitCode := 0, errorKind := none } := by
  refine ⟨rfl, rfl, rfl⟩

/-- C2: whenever the batch `executeCode` returns a result (success,
non-zero exit, or any internal error caught by its catch block), the
per-execution temp directory no longer exists. -/
theorem executeCode_returns_workspace_removed
    (w : ExecWorld) (executionId code language input : String) (r : ExecResult)
    (h : (executeCode w executionId code language input).outcome = .result r) :
    (executeCode w executionId code language input).tempDirExists = false := by
  revert h
  rcases w with ⟨mk, me, wr, we, ip, po, pe, co, ce, so, se, wex, lg⟩
  unfold executeCode
  cases languageConfigsLookup (jsToLowerCase language) <;>
    cases mk <;> cases wr <;> cases ip <;> cases po <;> cases co <;> cases so <;>
      cases wex <;> simp [executeCodeInherited]

/-- Witness for C2 at a concrete execution. -/
theorem executeCode_returns_workspace_removed_witness :
    (executeCode (worldExit 0 "ok") "exec-2" "x = 1" "python" "").tempDirExists = false :=
  executeCode_returns_workspace_removed (worldExit 0 "ok") "exec-2" "x = 1" "python" ""
    { executionId := "exec-2", status := "success", output := "ok", exitCode := 0 }
    (by rfl)

/-- C5 counterexample: `constructor` is not a key of the language
registry, yet the request is not rejected: the truthy member inherited
from `Object.prototype` passes the `if (!config)` check, the workspace
directory is created, and the execution proceeds to the generic catch
result instead of the unsupported-language throw. -/
theorem unsupported_language_proto_counterexample :
    languageConfigs (jsToLowerCase "constructor") = none ∧
    (executeCode worldNeverExits "exec-5c" "x = 1" "constructor" "").tempDirCreated
        = true ∧
    (executeCode worldNeverExits "exec-5c" "x = 1" "constructor" "").outcome
        = .result (catchResult "exec-5c" worldNeverExits.createErr) := by
  exact ⟨rfl, rfl, rfl⟩

/-- C5 (amended): a request whose lowercased language is neither a
registry key nor an `Object.prototype` member name is rejected by the
unsupported-language throw before any resource exists — no temp
directory, no file, no container, no pull, and no default profile. For
the inherited member names (`constructor`, `toString`, `__proto__`, ...)
the truthy inherited value passes the config check instead: no rejection
happens, no unsupported-language error is thrown, and a workspace
directory is created before the execution fails later in the Docker
phase. -/
theorem unsupported_language_rejection_scope
    (w : ExecWorld) (executionId code language input : String) :
    (languageConfigsLookup (jsToLowerCase language) = .absent →
      executeCode w executionId code language input =
        { outcome := .thrown ("Unsupported language: " ++ language)
          tempDirCreated := false, tempDirExists := false
          writtenFile := none, container := none, pullsIssued := 0 }) ∧
    (languageConfigsLookup (jsToLowerCase language) = .inheritedMember →
      w.mkdirOk = true →
      (executeCode w executionId code language input).tempDirCreated = true ∧
      ∀ msg, (executeCode w executionId code language input).outcome ≠ .thrown msg) := by
  constructor
  · intro h
    unfold executeCode
    rw [h]
  · intro h hmk
    unfold executeCode
    rw [h]
    unfold executeCodeInherited
    refine ⟨?_, ?_⟩
    · rw [if_neg (by simp [hmk])]
      split_ifs <;> rfl
    · intro msg
      rw [if_neg (by simp [hmk])]
      split_ifs <;> simp

/-- Witness for C5 (amended): rejected at `unknownlang`; workspace
created with no rejection at `constructor`. -/
theorem unsupported_language_rejection_scope_witness :
    executeCode worldNeverExits "exec-5" "x = 1" "unknownlang" "" =
      { outcome := .thrown ("Unsupported language: " ++ "unknownlang")
        tempDirCreated := false, tempDirExists := false
        writtenFile := none, container := none, pullsIssued := 0 } ∧
    (executeCode worldNeverExits "exec-5b" "x = 1" "constructor" "").tempDirCreated
        = true :=
  ⟨(unsupported_language_rejection_scope worldNeverExits "exec-5" "x = 1" "unknownlang"
      "").1 (by rfl),
   ((unsupported_language_rejection_scope worldNeverExits "exec-5b" "x = 1" "constructor"
      "").2 (by rfl) rfl).1⟩

/-- C6: when the container exits naturally with status code `c`, the
result has `exitCode` equal to `c`, its output is the combined stdout+stderr log
stream, and its status is `"success"` exactly when `c = 0` and
`"error"` otherwise. -/
theorem natural_exit_result
    (w : ExecWorld) (executionId code language input : String) {cfg : LangConfig}
    (c : Int)
    (hcfg : languageConfigs (jsToLowerCase language) = some cfg)
    (hmk : w.mkdirOk = true) (hwr : w.writeOk = true)
    (himg : w.imagePresent = true ∨ w.pullOk = true)
    (hcr : w.createOk = true) (hst : w.startOk = true)
    (hwx : w.waitExit = some c) :
    ∃ r, (executeCode w executionId code language input).outcome = .result r ∧
      r.exitCode = c ∧ r.output = w.logs ∧ r.errorKind = none ∧
      (r.status = "success" ↔ c = 0) ∧ (c ≠ 0 → r.status = "error") := by
  refine ⟨{ executionId := executionId
            status := if c = 0 then "success" else "error"
            output := w.logs, exitCode := c }, ?_, rfl, rfl, rfl, ?_, ?_⟩
  · unfold executeCode
    rw [languageConfigsLookup_own hcfg]
    rcases himg with h | h <;> simp [hmk, hwr, hcr, hst, hwx, h]
  · by_cases hc : c = 0 <;> simp [hc]
  · intro hc; simp [hc]

/-- Witness for C6: a cpp execution exiting with status 7. -/
theorem natural_exit_result_witness :
    ∃ r, (executeCode (worldExit 7 "compiled output") "exec-6" "int main()" "cpp" "").outcome
        = .result r ∧
      r.exitCode = 7 ∧ r.output = (worldExit 7 "compiled output").logs ∧
      r.errorKind = none ∧
      (r.status = "success" ↔ (7 : Int) = 0) ∧ ((7 : Int) ≠ 0 → r.status = "error") :=
  natural_exit_result (worldExit 7 "compiled output") "exec-6" "int main()" "cpp" "" 7
    (by rfl) rfl rfl (Or.inl rfl) rfl rfl rfl

/-- C7 counterexample: the claimed per-language filesystem policy does
not exist. In the full batch service a javascript execution — a language
whose run command performs no compile step — is provisioned with a
writable root filesystem (the claim requires `readonly`), while the
second service provisions every language, java included, readonly. -/
theorem filesystem_policy_counterexample :
    ((executeCode (worldExit 0 "") "exec-7" "console.log(1)" "javascript" "").container.map
        (fun c => c.host.readonlyRootfs)) = some false ∧
    hostConfigReadonly.readonlyRootfs = true := by
  refine ⟨rfl, rfl⟩

/-- C7 (amended): every container the batch `executeCode` creates has
`NetworkMode: "none"` and `AutoRemove: true`; its filesystem policy is a
per-service constant independent of the language — writable root
filesystem in the full service, read-only in the second service. -/
theorem batch_container_policies
    (w : ExecWorld) (executionId code language input : String) (c : ContainerConfig)
    (h : (executeCode w executionId code language input).container = some c) :
    c.host.networkMode = "none" ∧ c.host.autoRemove = true ∧
      c.host.readonlyRootfs = false ∧
      hostConfigReadonly.networkMode = "none" ∧
      hostConfigReadonly.autoRemove = true ∧
      hostConfigReadonly.readonlyRootfs = true := by
  have hc : c.host = hostConfigFull := by
    revert h
    rcases w with ⟨mk, me, wr, we, ip, po, pe, co, ce, so, se, wex, lg⟩
    unfold executeCode
    cases languageConfigsLookup (jsToLowerCase language) <;>
      cases mk <;> cases wr <;> cases ip <;> cases po <;> cases co <;> cases so <;>
        cases wex <;> intro h <;> simp_all [mkContainerConfig, executeCodeInherited] <;>
          subst h <;> rfl
  rw [hc]
  exact ⟨rfl, rfl, rfl, rfl, rfl, rfl⟩

/-- Witness for C7 (amended) at a concrete java execution. -/
theorem batch_container_policies_witness :
    (mkContainerConfig
        { image := "openjdk:11-jdk-slim", extension := "java", filename := some "Main.java"
          command := ["bash", "-c", "cd /code && javac Main.java && java Main"]
          inputCommand := some ["bash", "-c", "cd /code && javac Main.java && cat input.txt | java Main"]
          workDir := "/code" } "").host.networkMode = "none" ∧
    (executeCode (worldExit 0 "") "exec-7b" "class A" "java" "").container
      = some (mkContainerConfig
        { image := "openjdk:11-jdk-slim", extension := "java", filename := some "Main.java"
          command := ["bash", "-c", "cd /code && javac Main.java && java Main"]
          inputCommand := some ["bash", "-c", "cd /code && javac Main.java && cat input.txt | java Main"]
          workDir := "/code" } "") ∧
    (mkContainerConfig
        { image := "openjdk:11-jdk-slim", extension := "java", filename := some "Main.java"
          command := ["bash", "-c", "cd /code && javac Main.java && java Main"]
          inputCommand := some ["bash", "-c", "cd /code && javac Main.java && cat input.txt | java Main"]
          workDir := "/code" } "").host.autoRemove = true :=
  ⟨(batch_container_policies (worldExit 0 "") "exec-7b" "class A" "java" "" _ (by rfl)).1,
   by rfl,
   (batch_container_policies (worldExit 0 "") "exec-7b" "class A" "java" "" _ (by rfl)).2.1⟩

/-- C8: the workspace source file written by the batch `executeCode` is
named by `determineFilename`: for java the identifier captured from the
first `public class` occurrence in the submitted source (with the fixed
fallback `Main.java` when no such occurrence exists), and for every
other language the static name of the profile, independent of the submitted
source. -/
theorem source_filename_rule
    (w : ExecWorld) (executionId code language input : String) {cfg : LangConfig}
    (hcfg : languageConfigs (jsToLowerCase language) = some cfg)
    (hmk : w.mkdirOk = true) (hwr : w.writeOk = true) :
    (executeCode w executionId code language input).writtenFile
        = some (determineFilename language code cfg) ∧
    (jsToLowerCase language = "java" →
      (∀ cls, findPublicClass code.toList = some cls →
          determineFilename language code cfg = cls ++ ".java") ∧
      (findPublicClass code.toList = none →
          determineFilename language code cfg = "Main.java")) ∧
    (jsToLowerCase language ≠ "java" →
      (∀ code2, determineFilename language code cfg = determineFilename language code2 cfg) ∧
      (∀ f, cfg.filename = some f → f ≠ "" → determineFilename language code cfg = f)) := by
  refine ⟨?_, ?_, ?_⟩
  · rcases w with ⟨mk, me, wr, we, ip, po, pe, co, ce, so, se, wex, lg⟩
    simp only at hmk hwr
    subst hmk
    subst hwr
    unfold executeCode
    rw [languageConfigsLookup_own hcfg]
    cases ip <;> cases po <;> cases co <;> cases so <;> cases wex <;> simp
  · intro hj
    refine ⟨?_, ?_⟩
    · intro cls hcls
      have hcls' : findPublicClass code.data = some cls := hcls
      simp [determineFilename, hj, hcls']
    · intro hnone
      have hnone' : findPublicClass code.data = none := hnone
      simp [determineFilename, hj, hnone']
  · intro hnj
    refine ⟨?_, ?_⟩
    · intro code2
      simp [determineFilename, hnj]
    · intro f hf hfne
      simp [determineFilename, hnj, hf, hfne]

/-- Witness for C8: a java submission declaring `public class Foo` is
written as `Foo.java`. -/
theorem source_filename_rule_witness :
    (executeCode worldNeverExits "exec-8" "public class Foo" "java" "").writtenFile
        = some "Foo.java" := by
  have h := source_filename_rule worldNeverExits "exec-8" "public class Foo" "java" ""
    (by rfl) rfl rfl
  have h2 := (h.2.1 (by rfl)).1 "Foo" (by rfl)
  rw [h.1, h2]
  rfl

/-- C3 counterexample: with two concurrent batch executions referencing
the same uncached image, the interleaving in which both inspect the
cache before either pull completes issues two pulls, not exactly one;
and a batch execution whose pull fails does not surface
`ImageUnavailable` — it returns the generic catch result with no
`errorKind` at all. -/
theorem two_concurrent_pulls_counterexample :
    (phaseRun (phaseInit 2) [.inspect, .inspect, .pull, .pull]).pulls = 2 ∧
    ¬ (phaseRun (phaseInit 2) [.inspect, .inspect, .pull, .pull]).pulls = 1 ∧
    (executeCode (worldPullFail "pull failed") "exec-3" "x = 1" "python" "").outcome
        = .result { executionId := "exec-3", status := "error"
                    output := "pull failed", exitCode := 1, errorKind := none } := by
  refine ⟨rfl, by decide, rfl⟩

/-- C3 (amended): image pulls are not deduplicated. Each call that
observes the image absent at its own inspect issues its own pull, so `n`
concurrent calls can issue `n` pulls (all-inspects-first interleaving);
and a call whose pull fails returns the generic error result — status
`"error"`, the raw error message, `exitCode` 1, and no `errorKind` (in
particular not `ImageUnavailable`). -/
theorem concurrent_pulls_not_deduplicated :
    (∀ n : Nat, (phaseRun (phaseInit n) (checksFirst n)).pulls = n) ∧
    (∀ (w : ExecWorld) (executionId code language input : String) (cfg : LangConfig),
      languageConfigs (jsToLowerCase language) = some cfg →
      w.mkdirOk = true → w.writeOk = true →
      w.imagePresent = false → w.pullOk = false →
      (executeCode w executionId code language input).outcome
          = .result (catchResult executionId w.pullErr) ∧
      (executeCode w executionId code language input).pullsIssued = 1 ∧
      (catchResult executionId w.pullErr).errorKind = none) := by
  constructor
  · intro n
    have h1 := phaseRun_inspects n 0 0 0
    have h2 := phaseRun_pulls n false 0 0 0
    unfold phaseRun at h1 h2 ⊢
    unfold checksFirst phaseInit
    rw [List.foldl_append, h1]
    simpa using h2
  · intro w executionId code language input cfg hcfg hmk hwr hip hpo
    unfold executeCode
    rw [languageConfigsLookup_own hcfg]
    refine ⟨?_, ?_, rfl⟩ <;> simp [hmk, hwr, hip, hpo]

/-- Witness for C3 (amended) at two concurrent calls and a concrete
failing pull. -/
theorem concurrent_pulls_not_deduplicated_witness :
    (phaseRun (phaseInit 2) (checksFirst 2)).pulls = 2 ∧
    (executeCode (worldPullFail "no such image") "exec-3b" "x = 1" "python" "").outcome
        = .result (catchResult "exec-3b" "no such image") :=
  ⟨concurrent_pulls_not_deduplicated.1 2,
   (concurrent_pulls_not_deduplicated.2 (worldPullFail "no such image") "exec-3b" "x = 1"
     "python" "" _ (by rfl) rfl rfl rfl rfl).1⟩

/-- C4 counterexample: a result of the degraded-mode executor for a ruby
submission carries no simulation tag whatsoever — its `errorKind` and
`simulated` keys are both absent — while it reports `exitCode` 0 and
`status` success even though nothing was executed or measured. -/
theorem mock_result_untagged_counterexample :
    (mockExecuteCodeDefault "mock-1" "puts 1" "ruby" "").errorKind = none ∧
    (mockExecuteCodeDefault "mock-1" "puts 1" "ruby" "").simulated = none ∧
    (mockExecuteCodeDefault "mock-1" "puts 1" "ruby" "").exitCode = 0 ∧
    (mockExecuteCodeDefault "mock-1" "puts 1" "ruby" "").status = "success" ∧
    ¬ jsToLowerCase "ruby" ∈ mockSpecialLangs := by
  exact ⟨rfl, rfl, rfl, rfl, by decide⟩

/-- C4 (amended): no result of the degraded-mode executor carries a
simulation tag — none of its construction sites (the python patched
path, every switch arm, and the catch path) writes an `errorKind` or a
`simulated` key — and its exit codes are fabricated literals rather
than measurements: every result of the try block reports
`status: success` with `exitCode: 0` whatever the language, code, or
input, and the catch path reports `status: error` with `exitCode: 1`.
This holds for every behaviour of the pure string heuristics, hence for
the exact heuristics of the source. -/
theorem mock_results_untagged (h : MockHeuristics) (thrown : Option String)
    (executionId code language input : String) :
    (mockExecuteCode h thrown executionId code language input).errorKind = none ∧
    (mockExecuteCode h thrown executionId code language input).simulated = none ∧
    (thrown = none →
      (mockExecuteCode h thrown executionId code language input).status = "success" ∧
      (mockExecuteCode h thrown executionId code language input).exitCode = 0) ∧
    (∀ msg, thrown = some msg →
      (mockExecuteCode h thrown executionId code language input).status = "error" ∧
      (mockExecuteCode h thrown executionId code language input).exitCode = 1) := by
  cases thrown with
  | some msg =>
      refine ⟨rfl, rfl, ?_, ?_⟩
      · intro hc; exact absurd hc (by simp)
      · intro m hm; exact ⟨rfl, rfl⟩
  | none =>
      by_cases hpy : jsToLowerCase language = "python"
      · cases hpp : h.pythonPatch code input <;>
          simp [mockExecuteCode, hpy, hpp]
      · simp [mockExecuteCode, hpy]

/-- Witness for C4 (amended): an untagged try-block result at a go
submission and an untagged catch result. -/
theorem mock_results_untagged_witness :
    (mockExecuteCode trivialMockHeuristics none "mock-2" "package main" "go" "").errorKind
        = none ∧
    (mockExecuteCode trivialMockHeuristics none "mock-2" "package main" "go" "").simulated
        = none ∧
    (mockExecuteCode trivialMockHeuristics none "mock-2" "package main" "go" "").status
        = "success" ∧
    (mockExecuteCode trivialMockHeuristics none "mock-2" "package main" "go" "").exitCode
        = 0 ∧
    (mockExecuteCode trivialMockHeuristics (some "boom") "mock-3" "x = 1" "python" "").status
        = "error" ∧
    (mockExecuteCode trivialMockHeuristics (some "boom") "mock-3" "x = 1" "python" "").exitCode
        = 1 := by
  have h1 := mock_results_untagged trivialMockHeuristics none "mock-2" "package main" "go" ""
  have h2 := mock_results_untagged trivialMockHeuristics (some "boom") "mock-3" "x = 1"
    "python" ""
  exact ⟨h1.1, h1.2.1, (h1.2.2.1 rfl).1, (h1.2.2.1 rfl).2,
    (h2.2.2.2 "boom" rfl).1, (h2.2.2.2 "boom" rfl).2⟩

/-- C9 counterexample: the close handler of the mock terminal clears the
active flag of the session and then still emits a `terminal_output` event —
an output after the session is closed — and an input event delivered to
the closed session is silently dropped: the service emits nothing at
all, in particular no `InputAfterClose` rejection (after session
creation it can only ever emit `terminal_output` payloads). -/
theorem closed_session_events_counterexample :
    (mockTermStep "t0" mockSessionActive .close).1.active = false ∧
    (mockTermStep "t0" mockSessionActive .close).2
        = [.output "Terminal session closed."] ∧
    (mockTermStep "t0" (mockTermStep "t0" mockSessionActive .close).1 (.input "ls")).2
        = [] ∧
    (mockTermStep "t0" (mockTermStep "t0" mockSessionActive .close).1 (.input "ls")).1
        = (mockTermStep "t0" mockSessionActive .close).1 := by
  exact ⟨rfl, rfl, rfl, rfl⟩

/-- C9 (amended): once a mock terminal session is closed (`active` is
false), every input event is silently ignored — the session is unchanged
and nothing is emitted, neither output nor any `InputAfterClose` error —
while the close handler itself always emits one final
"Terminal session closed." output after deactivating the session. -/
theorem closed_session_behavior (now d : String) (s : MockTermSession)
    (h : s.active = false) :
    mockTermStep now s (.input d) = (s, []) ∧
    (mockTermStep now s .close).2 = [.output "Terminal session closed."] ∧
    (mockTermStep now s .close).1.active = false := by
  refine ⟨?_, rfl, rfl⟩
  simp [mockTermStep, h]

/-- Witness for C9 (amended) at a concrete closed session. -/
theorem closed_session_behavior_witness :
    mockTermStep "t1" mockSessionClosed (.input "pwd") = (mockSessionClosed, []) ∧
    (mockTermStep "t1" mockSessionClosed .close).2
        = [.output "Terminal session closed."] ∧
    (mockTermStep "t1" mockSessionClosed .close).1.active = false :=
  closed_session_behavior "t1" "pwd" mockSessionClosed rfl

/-- C10 counterexample: `constructor` is not among the known terminal
languages, yet the session is not created with the `alpine:latest`
default: the lookup returns the truthy inherited `Object.prototype`
member as the image, container creation fails, and `terminal_error` is
emitted instead. -/
theorem terminal_proto_language_counterexample :
    terminalImageMap (jsToLowerCase "constructor") = none ∧
    getImageForLanguage (some "constructor") = .inheritedMember ∧
    terminalCreate true "sess-2" (some "constructor")
        = .creationError "Failed to create terminal session" := by
  exact ⟨rfl, rfl, rfl⟩

/-- C10 (amended): a creation request whose language is missing, empty,
or neither an image-map key nor an inherited `Object.prototype` member
name is never rejected for its language: the session is created with
the default image `alpine:latest`. For the inherited member names
(`constructor`, `__proto__`, ...) the truthy inherited value is
returned as the image instead of the default, container creation fails,
and the handler emits `terminal_error` — no session is created. -/
theorem unknown_terminal_language_default_scope
    (sessionId : String) (language : Option String) :
    ((language = none ∨ language = some "" ∨
        (∃ l, language = some l ∧ l ≠ "" ∧ terminalImageMap (jsToLowerCase l) = none ∧
          ¬ jsToLowerCase l ∈ objectProtoKeys)) →
      terminalCreate true sessionId language = .created sessionId "alpine:latest") ∧
    (∀ l, language = some l → l ≠ "" → terminalImageMap (jsToLowerCase l) = none →
      jsToLowerCase l ∈ objectProtoKeys →
      ∀ dockerOk, terminalCreate dockerOk sessionId language
          = .creationError "Failed to create terminal session") := by
  constructor
  · intro h
    rcases h with h | h | ⟨l, hl, hne, hmap, hproto⟩
    · subst h; rfl
    · subst h; rfl
    · subst hl
      simp [terminalCreate, getImageForLanguage, hne, hmap, hproto]
  · intro l hl hne hmap hproto dockerOk
    subst hl
    simp [terminalCreate, getImageForLanguage, hne, hmap, hproto]

/-- Witness for C10 (amended): created with the default image at
`unknownlang`; creation fails with `terminal_error` at `__proto__`. -/
theorem unknown_terminal_language_default_scope_witness :
    terminalCreate true "sess-1" (some "unknownlang")
        = .created "sess-1" "alpine:latest" ∧
    terminalCreate true "sess-3" (some "__proto__")
        = .creationError "Failed to create terminal session" :=
  ⟨(unknown_terminal_language_default_scope "sess-1" (some "unknownlang")).1
     (Or.inr (Or.inr ⟨"unknownlang", rfl, by decide, by rfl, by decide⟩)),
   (unknown_terminal_language_default_scope "sess-3" (some "__proto__")).2
     "__proto__" rfl (by decide) (by rfl) (by decide) true⟩
